import Mathlib

/-
Shallow embedding of the session orchestrator in src/src-tauri/src/lib.rs
(crate new_rl_replay).  The orchestrator's own logic — the Tauri commands
connect_obs, play_highlights, set_sleep_duration, get_sleep_duration, the
start_system spawner and the run_main_system dispatch loop — is translated
from lib.rs.  The external collaborators (obs::Obs, mugi_schema, udp,
vlc_manager) are not under src/; following the spec they are exposed only
through their capability contracts, modelled here as oracle records whose
fields give the result of each fallible call.
-/

namespace RlReplay

/-- Modelled from the spec: the closed command vocabulary `mugi_schema::MugiCmd`
(module mugi_schema is not in src/).  `Scored` and `EpicSave` are named in
lib.rs as the trigger set; `Other` stands for the remaining members of the
vocabulary ("e.g., Scored, EpicSave, others"). -/
inductive MugiCmd
  | Scored
  | EpicSave
  | Other
deriving DecidableEq, Repr

/-- Trigger test from lib.rs line 239: `cmd == MugiCmd::Scored || cmd == MugiCmd::EpicSave`. -/
def isTrigger (c : MugiCmd) : Bool :=
  c == MugiCmd.Scored || c == MugiCmd.EpicSave

/-- Connection descriptor stored in shared state: `(String, u16, Option<String>)`
from lib.rs line 18 (host, port, optional password). -/
def ConnInfo : Type := String × Nat × Option String

/-- Shared application state `AppState` (lib.rs lines 21-25): connection info,
running flag, sleep duration (u64 seconds, modelled as Nat). -/
structure AppState where
  obs_connection_info : Option ConnInfo
  is_system_running : Bool
  sleep_duration_sec : Nat

/-- Initial state `AppState::new` (lib.rs lines 28-34): no connection info,
not running, default delay 3 seconds. -/
def AppState.new : AppState :=
  { obs_connection_info := none, is_system_running := false, sleep_duration_sec := 3 }

/-- Modelled from the spec: the fallible operations of the Backend Controller
(`obs::Obs`, module obs is not in src/) used by the Tauri commands.  Each field
gives the result the backend returns for that call in the modelled execution. -/
structure ObsOracle where
  connect : String → Nat → Option String → Except String Unit
  set_replay_buffer : Except String Unit
  init_vlc_source : Except String Unit
  play_vlc_source : List String → Except String Unit

/-- Observable side effects of a command invocation, in the order the code
performs them: backend calls, the store of the connection descriptor
(lib.rs lines 138-141), the write of the running flag (lib.rs lines 165-168)
and the spawn of the run-loop task (lib.rs line 174). -/
inductive SysEvent
  | obsConnect (host : String) (port : Nat) (password : Option String)
  | obsSetReplayBuffer
  | obsInitVlcSource
  | obsPlayVlcSource (paths : List String)
  | storeConnInfo (host : String) (port : Nat) (password : Option String)
  | setRunning (b : Bool)
  | spawnRunLoop

/-- Result of one Tauri command: the `Result<String, String>` returned to the
caller, the shared state afterwards, and the trace of observable effects. -/
structure CmdOut where
  result : Except String String
  state : AppState
  trace : List SysEvent

/-- Tauri command `get_sleep_duration` (lib.rs lines 37-41): reads the shared
duration and always returns Ok. -/
def get_sleep_duration (s : AppState) : Except String Nat :=
  .ok s.sleep_duration_sec

/-- Clamp used by `set_sleep_duration` (lib.rs line 48): `duration.max(1).min(30)`. -/
def clampDuration (d : Nat) : Nat :=
  min (max d 1) 30

/-- Tauri command `set_sleep_duration` (lib.rs lines 43-59): clamps the request
to [1,30], stores it, and returns a confirmation message carrying the clamped
value actually stored. -/
def set_sleep_duration (duration : Nat) (s : AppState) : CmdOut :=
  { result := .ok ("録画遅延時間を" ++ toString (clampDuration duration) ++ "秒に設定しました")
    state := { s with sleep_duration_sec := clampDuration duration }
    trace := [] }

/-- Tauri command `play_highlights` (lib.rs lines 61-99): empty list is a no-op
success; otherwise requires stored connection info, connects a fresh backend
session and plays the clip list on the VLC source. -/
def play_highlights (video_paths : List String) (s : AppState) (o : ObsOracle) : CmdOut :=
  if video_paths.isEmpty then
    { result := .ok "再生する動画がありません", state := s, trace := [] }
  else
    match s.obs_connection_info with
    | none => { result := .error "OBS接続情報が見つかりません", state := s, trace := [] }
    | some (host, port, password) =>
      match o.connect host port password with
      | .error e =>
        { result := .error ("Failed to connect to OBS: " ++ e)
          state := s
          trace := [.obsConnect host port password] }
      | .ok _ =>
        match o.play_vlc_source video_paths with
        | .error e =>
          { result := .error ("Failed to play VLC source: " ++ e)
            state := s
            trace := [.obsConnect host port password, .obsPlayVlcSource video_paths] }
        | .ok _ =>
          { result := .ok (toString video_paths.length ++ "個のハイライト動画を再生しました")
            state := s
            trace := [.obsConnect host port password, .obsPlayVlcSource video_paths] }

/-- Tauri command `connect_obs` (lib.rs lines 101-153) together with the
`start_system` call it makes on success (lib.rs lines 155-190): guard on the
running flag, validate connect / replay buffer / VLC source, store the
connection descriptor, set running, spawn the run loop. -/
def connect_obs (host : String) (port : Nat) (password : Option String)
    (s : AppState) (o : ObsOracle) : CmdOut :=
  if s.is_system_running then
    { result := .error "システムは既に動作中です", state := s, trace := [] }
  else
    match o.connect host port password with
    | .error e =>
      { result := .error ("OBS接続に失敗しました: " ++ e)
        state := s
        trace := [.obsConnect host port password] }
    | .ok _ =>
      match o.set_replay_buffer with
      | .error e =>
        { result := .error ("Failed to set replay buffer: " ++ e)
          state := s
          trace := [.obsConnect host port password, .obsSetReplayBuffer] }
      | .ok _ =>
        match o.init_vlc_source with
        | .error e =>
          { result := .error ("Failed to init VLC source: " ++ e)
            state := s
            trace := [.obsConnect host port password, .obsSetReplayBuffer, .obsInitVlcSource] }
        | .ok _ =>
          { result := .ok "OBS接続に成功しました"
            state := { s with
              obs_connection_info := some (host, port, password)
              is_system_running := true }
            trace := [.obsConnect host port password, .obsSetReplayBuffer, .obsInitVlcSource,
                      .storeConnInfo host port password, .setRunning true, .spawnRunLoop] }

/-- Modelled from the spec: oracle for the collaborator calls made during the
run loop's setup phase (lib.rs lines 199-223): reconnect, replay-buffer
configuration, VLC-source init, event-listener registration.  The concrete
obs module is not in src/. -/
structure SetupOracle where
  connect : Except String Unit
  set_replay_buffer : Except String Unit
  init_vlc_source : Except String Unit
  set_event_listener : Except String Unit

/-- Setup oracle in which every collaborator call succeeds. -/
def setupAllOk : SetupOracle :=
  { connect := .ok (), set_replay_buffer := .ok (), init_vlc_source := .ok ()
    set_event_listener := .ok () }

/-- Modelled from the spec: per-message collaborators of the dispatch loop.
`parse` is `mugi_schema::parse_cmd` (total decoder, not in src/); `delayAt k`
is the value the k-th read of the shared `sleep_duration_sec` lock observes;
`saveResultAt k` is the backend result of the k-th `save_replay_buffer` call. -/
structure LoopOracle where
  parse : String → Except String MugiCmd
  delayAt : Nat → Nat
  saveResultAt : Nat → Except String Unit

/-- State carried by the dispatch loop while it processes the message channel:
a logical clock (seconds) and the number of save-buffer calls made so far. -/
structure DispatchState where
  clock : Nat
  saveCount : Nat
deriving DecidableEq, Repr

/-- Observable outcome of processing one received message in the dispatch loop
(lib.rs lines 234-252): a logged parse failure, a decoded non-trigger command
ignored, or a save-buffer call fired at `fireTime` for a message received at
`receipt`, with the backend's result. -/
inductive DispatchEvent
  | parseFailed (raw : String) (time : Nat)
  | ignored (cmd : MugiCmd) (time : Nat)
  | save (receipt : Nat) (fireTime : Nat) (result : Except String Unit)
deriving Repr

/-- Body of the dispatch loop for one message (lib.rs lines 234-251): parse the
datagram; on failure log and continue; on a trigger command read the current
delay d, sleep d seconds (advancing the clock), call save-buffer once and log
any failure; on any other command do nothing. -/
def dispatchStep (o : LoopOracle) (st : DispatchState) (raw : String) :
    DispatchState × List DispatchEvent :=
  match o.parse raw with
  | .error _ => (st, [.parseFailed raw st.clock])
  | .ok cmd =>
    if isTrigger cmd then
      let d := o.delayAt st.saveCount
      ({ clock := st.clock + d, saveCount := st.saveCount + 1 },
       [.save st.clock (st.clock + d) (o.saveResultAt st.saveCount)])
    else
      (st, [.ignored cmd st.clock])

/-- The dispatch loop `while let Some(d) = rx.recv().await` (lib.rs lines
234-252), run over the FIFO sequence of messages the channel delivers before
it closes. -/
def dispatchLoop (o : LoopOracle) (st : DispatchState) :
    List String → DispatchState × List DispatchEvent
  | [] => (st, [])
  | raw :: rest =>
    let out := dispatchStep o st raw
    let tail := dispatchLoop o out.1 rest
    (tail.1, out.2 ++ tail.2)

/-- Save events among a dispatch trace, as (receipt, fireTime) pairs. -/
def saveEventsOf (evs : List DispatchEvent) : List (Nat × Nat) :=
  evs.filterMap fun e =>
    match e with
    | .save r f _ => some (r, f)
    | _ => none

/-- The spawned session task `run_main_system` (lib.rs lines 192-256): redo
connect / replay-buffer / VLC-source setup, register the event listener, then
run the dispatch loop over the messages delivered before the channel closes;
returns Err on a setup failure and Ok(()) when the channel closes. -/
def run_main_system (so : SetupOracle) (lo : LoopOracle) (msgs : List String) :
    Except String Unit × List DispatchEvent :=
  match so.connect with
  | .error e => (.error ("Failed to reconnect to OBS: " ++ e), [])
  | .ok _ =>
    match so.set_replay_buffer with
    | .error e => (.error ("Failed to set replay buffer: " ++ e), [])
    | .ok _ =>
      match so.init_vlc_source with
      | .error e => (.error ("Failed to init VLC source: " ++ e), [])
      | .ok _ =>
        match so.set_event_listener with
        | .error e => (.error ("Failed to set event listener: " ++ e), [])
        | .ok _ => (.ok (), (dispatchLoop lo ⟨0, 0⟩ msgs).2)

/-- System-level operations that can touch the shared `AppState` over the
process lifetime: the four Tauri commands, and termination of a spawned run
loop (lib.rs lines 174-186: the spawn wrapper only logs the loop's result). -/
inductive Op
  | connectObs (host : String) (port : Nat) (password : Option String) (o : ObsOracle)
  | playHighlights (paths : List String) (o : ObsOracle)
  | setSleepDuration (d : Nat)
  | getSleepDuration
  | runLoopExit

/-- Effect of one operation on the shared state.  `runLoopExit` is the
identity: when `run_main_system` returns — channel closed (Ok) or setup failed
(Err) — the wrapper in `start_system` only logs; no code path writes
`is_system_running` back to false or touches the other fields. -/
def step (s : AppState) : Op → AppState
  | .connectObs host port password o => (connect_obs host port password s o).state
  | .playHighlights paths o => (play_highlights paths s o).state
  | .setSleepDuration d => (set_sleep_duration d s).state
  | .getSleepDuration => s
  | .runLoopExit => s

/-- Iterated effect of a sequence of operations on the shared state. -/
def run (s : AppState) (ops : List Op) : AppState :=
  ops.foldl step s

/-- Backend oracle in which every call succeeds. -/
def obsAllOk : ObsOracle :=
  { connect := fun _ _ _ => .ok (), set_replay_buffer := .ok ()
    init_vlc_source := .ok (), play_vlc_source := fun _ => .ok () }

/-- Backend oracle whose connect call fails with message "x". -/
def obsConnectFail : ObsOracle :=
  { connect := fun _ _ _ => .error "x", set_replay_buffer := .ok ()
    init_vlc_source := .ok (), play_vlc_source := fun _ => .ok () }

/-- Example loop oracle: decodes "Scored" to the trigger `Scored`, "Demolished"
to the non-trigger `Other`, everything else to a decode error; delay 3 seconds;
every save succeeds. -/
def loopOracleEx : LoopOracle :=
  { parse := fun raw =>
      if raw = "Scored" then .ok MugiCmd.Scored
      else if raw = "Demolished" then .ok MugiCmd.Other
      else .error "parse error"
    delayAt := fun _ => 3
    saveResultAt := fun _ => .ok () }

/-- Example loop oracle whose save-buffer calls all fail. -/
def loopOracleSaveFail : LoopOracle :=
  { parse := loopOracleEx.parse
    delayAt := fun _ => 3
    saveResultAt := fun _ => .error "save failed" }

/-- A message the dispatch loop treats as a no-op: its decode fails, or it
decodes to a command outside the trigger set. -/
def nonTriggerMsg (o : LoopOracle) (raw : String) : Prop :=
  (∃ e, o.parse raw = .error e) ∨ ∃ cmd, o.parse raw = .ok cmd ∧ isTrigger cmd = false

/-- Processing one message always yields exactly one dispatch event. -/
theorem dispatchStep_length (o : LoopOracle) (st : DispatchState) (raw : String) :
    (dispatchStep o st raw).2.length = 1 := by
  unfold dispatchStep
  cases o.parse raw with
  | error e => rfl
  | ok cmd =>
    by_cases h : isTrigger cmd <;> simp [h]

/-- The dispatch loop processes every delivered message exactly once. -/
theorem dispatchLoop_length (o : LoopOracle) (st : DispatchState) (msgs : List String) :
    (dispatchLoop o st msgs).2.length = msgs.length := by
  induction msgs generalizing st with
  | nil => rfl
  | cons raw rest ih =>
    simp [dispatchLoop, dispatchStep_length, ih, Nat.add_comm]

/-- The playback command never mutates the shared state. -/
theorem play_highlights_state (paths : List String) (s : AppState) (o : ObsOracle) :
    (play_highlights paths s o).state = s := by
  unfold play_highlights
  split
  · rfl
  · split
    · rfl
    · split
      · rfl
      · split <;> rfl

/-- The session-start command either leaves the stored connection descriptor
unchanged or overwrites it with the descriptor just validated; it never clears
it. -/
theorem connect_obs_conn_info (host : String) (port : Nat) (password : Option String)
    (s : AppState) (o : ObsOracle) :
    (connect_obs host port password s o).state.obs_connection_info = s.obs_connection_info ∨
    (connect_obs host port password s o).state.obs_connection_info
      = some (host, port, password) := by
  unfold connect_obs
  by_cases h : s.is_system_running
  · simp [h]
  · simp only [h, if_false]
    cases o.connect host port password with
    | error e => left; rfl
    | ok u =>
      cases o.set_replay_buffer with
      | error e => left; rfl
      | ok u =>
        cases o.init_vlc_source with
        | error e => left; rfl
        | ok u => right; rfl

/-- No single operation can clear a stored connection descriptor. -/
theorem step_conn_info_some (s : AppState) (op : Op) (c : ConnInfo)
    (h : s.obs_connection_info = some c) :
    ∃ d, (step s op).obs_connection_info = some d := by
  cases op with
  | connectObs host port password o =>
    rcases connect_obs_conn_info host port password s o with heq | heq
    · exact ⟨c, heq.trans h⟩
    · exact ⟨(host, port, password), heq⟩
  | playHighlights paths o =>
    exact ⟨c, by rw [step, play_highlights_state]; exact h⟩
  | setSleepDuration d => exact ⟨c, h⟩
  | getSleepDuration => exact ⟨c, h⟩
  | runLoopExit => exact ⟨c, h⟩

/-- No sequence of operations can clear a stored connection descriptor. -/
theorem run_conn_info_some (ops : List Op) (s : AppState) (c : ConnInfo)
    (h : s.obs_connection_info = some c) :
    ∃ d, (run s ops).obs_connection_info = some d := by
  induction ops generalizing s c with
  | nil => exact ⟨c, h⟩
  | cons op rest ih =>
    obtain ⟨d, hd⟩ := step_conn_info_some s op c h
    exact ih (step s op) d hd

/-- Two strings whose first characters differ are unequal even after appending
an arbitrary suffix to the first one. -/
theorem string_head_append_ne (pre tgt e : String) (c₁ c₂ : Char) (hc : c₁ ≠ c₂)
    (h₁ : pre.data.head? = some c₁) (h₂ : tgt.data.head? = some c₂) :
    pre ++ e ≠ tgt := by
  intro he
  have hd : pre.data ++ e.data = tgt.data := by
    rw [← String.data_append, he]
  cases hp : pre.data with
  | nil => rw [hp] at h₁; simp at h₁
  | cons x xs =>
    rw [hp] at h₁ hd
    simp at h₁
    rw [← hd] at h₂
    simp at h₂
    exact hc (h₁.symm.trans h₂)

/-- Filtering save events distributes over trace concatenation. -/
theorem saveEventsOf_append (a b : List DispatchEvent) :
    saveEventsOf (a ++ b) = saveEventsOf a ++ saveEventsOf b :=
  List.filterMap_append a b _

/-- A non-trigger message leaves the dispatch state untouched and contributes
no save event. -/
theorem dispatchStep_nonTrigger (o : LoopOracle) (st : DispatchState) (raw : String)
    (h : nonTriggerMsg o raw) :
    (dispatchStep o st raw).1 = st ∧ saveEventsOf (dispatchStep o st raw).2 = [] := by
  rcases h with ⟨e, he⟩ | ⟨cmd, hc, hnt⟩
  · simp [dispatchStep, he, saveEventsOf]
  · simp [dispatchStep, hc, hnt, saveEventsOf]

/-- A connect-failure message from the playback path can never collide with the
NoConnectionInfo message. -/
theorem notConnInfoError_connect (e : String) :
    ("Failed to connect to OBS: " ++ e) ≠ "OBS接続情報が見つかりません" :=
  string_head_append_ne _ _ e "F".front "O".front (by decide) rfl rfl

/-- A playback-failure message can never collide with the NoConnectionInfo
message. -/
theorem notConnInfoError_play (e : String) :
    ("Failed to play VLC source: " ++ e) ≠ "OBS接続情報が見つかりません" :=
  string_head_append_ne _ _ e "F".front "O".front (by decide) rfl rfl

/-- C2: a start-session call made while the running flag is true returns the
AlreadyRunning error ("システムは既に動作中です") and does nothing else: the shared
state is returned unchanged, the effect trace is empty (no backend connection,
no store of connection info, no write of the flag, no spawned run loop). -/
theorem claim_C2_already_running_rejected (host : String) (port : Nat)
    (password : Option String) (s : AppState) (o : ObsOracle)
    (h : s.is_system_running = true) :
    connect_obs host port password s o =
      { result := .error "システムは既に動作中です", state := s, trace := [] } := by
  simp [connect_obs, h]

/-- Witness for C2 at a concrete running state and all-succeeding backend. -/
theorem claim_C2_witness :
    connect_obs "127.0.0.1" 4444 none
        { AppState.new with is_system_running := true } obsAllOk =
      { result := .error "システムは既に動作中です",
        state := { AppState.new with is_system_running := true }, trace := [] } :=
  claim_C2_already_running_rejected "127.0.0.1" 4444 none
    { AppState.new with is_system_running := true } obsAllOk rfl

/-- C3: when session start fails at the connect step, the configure-replay-buffer
step, or the init-video-source step, connect_obs returns the error message
naming that step ("OBS接続に失敗しました", "Failed to set replay buffer",
"Failed to init VLC source") and the shared state is returned unchanged, so the
running flag stays false and no partial session is started. -/
theorem claim_C3_setup_failure_typed_error (host : String) (port : Nat)
    (password : Option String) (s : AppState) (o : ObsOracle)
    (hrun : s.is_system_running = false) :
    (∀ e, o.connect host port password = .error e →
      connect_obs host port password s o =
        { result := .error ("OBS接続に失敗しました: " ++ e), state := s,
          trace := [.obsConnect host port password] }) ∧
    (∀ e, o.connect host port password = .ok () → o.set_replay_buffer = .error e →
      connect_obs host port password s o =
        { result := .error ("Failed to set replay buffer: " ++ e), state := s,
          trace := [.obsConnect host port password, .obsSetReplayBuffer] }) ∧
    (∀ e, o.connect host port password = .ok () → o.set_replay_buffer = .ok () →
      o.init_vlc_source = .error e →
      connect_obs host port password s o =
        { result := .error ("Failed to init VLC source: " ++ e), state := s,
          trace := [.obsConnect host port password, .obsSetReplayBuffer,
                    .obsInitVlcSource] }) := by
  refine ⟨?_, ?_, ?_⟩ <;> intros <;> simp [connect_obs, hrun, *]

/-- Witness for C3: a backend whose connect call fails with "x", applied from
the initial state. -/
theorem claim_C3_witness :
    connect_obs "127.0.0.1" 4444 none AppState.new obsConnectFail =
      { result := .error ("OBS接続に失敗しました: " ++ "x"), state := AppState.new,
        trace := [.obsConnect "127.0.0.1" 4444 none] } :=
  (claim_C3_setup_failure_typed_error "127.0.0.1" 4444 none AppState.new
    obsConnectFail rfl).1 "x" rfl

/-- C4: set_sleep_duration v stores min (max v 1) 30 — the clamp of v to [1,30]
— and succeeds with a message reporting that clamped value; get_sleep_duration
on the resulting state returns exactly the clamped value; and
get_sleep_duration never fails on any state. -/
theorem claim_C4_delay_clamped_and_read_back (v : Nat) (s : AppState) :
    (set_sleep_duration v s).result =
      .ok ("録画遅延時間を" ++ toString (min (max v 1) 30) ++ "秒に設定しました") ∧
    (set_sleep_duration v s).state.sleep_duration_sec = min (max v 1) 30 ∧
    get_sleep_duration (set_sleep_duration v s).state = .ok (min (max v 1) 30) ∧
    ∀ t : AppState, get_sleep_duration t = .ok t.sleep_duration_sec :=
  ⟨rfl, rfl, rfl, fun _ => rfl⟩

/-- C8: playing an empty clip list succeeds with the no-op message and an empty
effect trace: no backend connection, no playback request, state unchanged. -/
theorem claim_C8_empty_playlist_noop (s : AppState) (o : ObsOracle) :
    play_highlights [] s o =
      { result := .ok "再生する動画がありません", state := s, trace := [] } :=
  rfl

/-- C9: playing a non-empty clip list while no connection descriptor has ever
been stored fails with the NoConnectionInfo error ("OBS接続情報が見つかりません")
and an empty effect trace: the backend is not contacted, state unchanged. -/
theorem claim_C9_no_conn_info_rejected (paths : List String) (s : AppState)
    (o : ObsOracle) (hne : paths ≠ []) (hnone : s.obs_connection_info = none) :
    play_highlights paths s o =
      { result := .error "OBS接続情報が見つかりません", state := s, trace := [] } := by
  unfold play_highlights
  rw [hnone]
  simp [hne]

/-- Witness for C9: one clip, initial state (no descriptor ever stored). -/
theorem claim_C9_witness :
    play_highlights ["a.mp4"] AppState.new obsAllOk =
      { result := .error "OBS接続情報が見つかりません", state := AppState.new,
        trace := [] } :=
  claim_C9_no_conn_info_rejected ["a.mp4"] AppState.new obsAllOk
    (List.cons_ne_nil "a.mp4" []) rfl

/-- C5: when the dispatch loop receives a message decoding to a trigger command
with current delay d = delayAt saveCount, it emits exactly one save-buffer call
for that message, fired at receipt + d (so no earlier than d seconds after
receipt, the clock having been suspended for d seconds), and the remaining
messages buffered behind it are processed afterwards, in their original order,
from the post-sleep state; every one of them is still processed (event count =
rest.length + 1). -/
theorem claim_C5_trigger_timing (o : LoopOracle) (st : DispatchState) (raw : String)
    (rest : List String) (cmd : MugiCmd)
    (hp : o.parse raw = .ok cmd) (ht : isTrigger cmd = true) :
    (dispatchLoop o st (raw :: rest)).2 =
      DispatchEvent.save st.clock (st.clock + o.delayAt st.saveCount)
          (o.saveResultAt st.saveCount)
        :: (dispatchLoop o
              { clock := st.clock + o.delayAt st.saveCount, saveCount := st.saveCount + 1 }
              rest).2 ∧
    (dispatchLoop o st (raw :: rest)).2.length = rest.length + 1 := by
  constructor
  · simp [dispatchLoop, dispatchStep, hp, ht]
  · simp [dispatchLoop_length]

/-- Witness for C5: message "Scored" under the example oracle (delay 3) fires
one save at time 3 = 0 + 3. -/
theorem claim_C5_witness :
    (dispatchLoop loopOracleEx ⟨0, 0⟩ ["Scored"]).2 =
      [DispatchEvent.save 0 3 (.ok ())] := by
  have h := claim_C5_trigger_timing loopOracleEx ⟨0, 0⟩ "Scored" [] MugiCmd.Scored rfl rfl
  simpa using h.1

/-- C6: when the save-buffer call for a trigger message fails, the failure is
recorded in the event (logged) and the loop is not terminated: every remaining
message is still processed; moreover after a successful setup the run loop's
result never carries a save failure to any caller — run_main_system returns
Ok(()) for every message sequence. -/
theorem claim_C6_save_failure_nonfatal (o : LoopOracle) (st : DispatchState)
    (raw : String) (rest : List String) (cmd : MugiCmd) (e : String)
    (hp : o.parse raw = .ok cmd) (ht : isTrigger cmd = true)
    (hfail : o.saveResultAt st.saveCount = .error e) :
    (dispatchLoop o st (raw :: rest)).2 =
      DispatchEvent.save st.clock (st.clock + o.delayAt st.saveCount) (.error e)
        :: (dispatchLoop o
              { clock := st.clock + o.delayAt st.saveCount, saveCount := st.saveCount + 1 }
              rest).2 ∧
    (dispatchLoop o
        { clock := st.clock + o.delayAt st.saveCount, saveCount := st.saveCount + 1 }
        rest).2.length = rest.length ∧
    ∀ msgs : List String, (run_main_system setupAllOk o msgs).1 = .ok () := by
  refine ⟨?_, dispatchLoop_length _ _ _, fun msgs => rfl⟩
  simp [dispatchLoop, dispatchStep, hp, ht, hfail]

/-- Witness for C6: two "Scored" messages with every save failing; both are
processed, each logging its failed save. -/
theorem claim_C6_witness :
    (dispatchLoop loopOracleSaveFail ⟨0, 0⟩ ["Scored", "Scored"]).2 =
      [DispatchEvent.save 0 3 (.error "save failed"),
       DispatchEvent.save 3 6 (.error "save failed")] := by
  have h := claim_C6_save_failure_nonfatal loopOracleSaveFail ⟨0, 0⟩ "Scored" ["Scored"]
    MugiCmd.Scored "save failed" rfl rfl rfl
  rw [h.1]
  rfl

/-- C7: over a message sequence containing only undecodable messages and
decoded non-trigger commands, the dispatch loop makes zero save-buffer calls
and its state (clock and save counter) is unchanged — each such message is
logged or ignored with no side effect. -/
theorem claim_C7_no_trigger_no_save (o : LoopOracle) (st : DispatchState)
    (msgs : List String) (h : ∀ raw ∈ msgs, nonTriggerMsg o raw) :
    saveEventsOf (dispatchLoop o st msgs).2 = [] ∧ (dispatchLoop o st msgs).1 = st := by
  induction msgs generalizing st with
  | nil => exact ⟨rfl, rfl⟩
  | cons raw rest ih =>
    have hrest : ∀ r ∈ rest, nonTriggerMsg o r :=
      fun r hr => h r (List.mem_cons_of_mem _ hr)
    obtain ⟨h1, h2⟩ := dispatchStep_nonTrigger o st raw (h raw (List.mem_cons_self _ _))
    obtain ⟨ih1, ih2⟩ := ih st hrest
    constructor
    · simp only [dispatchLoop]
      rw [saveEventsOf_append, h1, h2, ih1]
      rfl
    · simp only [dispatchLoop]
      rw [h1, ih2]

/-- Witness for C7: a malformed datagram and a decoded non-trigger command;
no save event, dispatch state unchanged. -/
theorem claim_C7_witness :
    saveEventsOf (dispatchLoop loopOracleEx ⟨0, 0⟩ ["???", "Demolished"]).2 = [] ∧
    (dispatchLoop loopOracleEx ⟨0, 0⟩ ["???", "Demolished"]).1 = ⟨0, 0⟩ := by
  apply claim_C7_no_trigger_no_save
  intro raw hr
  simp only [List.mem_cons, List.not_mem_nil, or_false] at hr
  rcases hr with rfl | rfl
  · exact Or.inl ⟨"parse error", rfl⟩
  · exact Or.inr ⟨MugiCmd.Other, rfl, rfl⟩

/-- C10: after a successful validation phase the connection descriptor is
stored (and, per the effect trace, stored before the run loop is spawned:
storeConnInfo precedes spawnRunLoop); no operation — another connect_obs, a
playback, a config access, or the exit of a run loop — ever clears a stored
descriptor back to none, nor does any sequence of operations; consequently any
later non-empty playback call on such a state does not fail with the
NoConnectionInfo error. -/
theorem claim_C10_conn_info_persistent :
    (∀ (host : String) (port : Nat) (password : Option String) (s : AppState)
        (o : ObsOracle),
      s.is_system_running = false →
      o.connect host port password = .ok () →
      o.set_replay_buffer = .ok () →
      o.init_vlc_source = .ok () →
      (connect_obs host port password s o).state.obs_connection_info
          = some (host, port, password) ∧
      (connect_obs host port password s o).trace
          = [.obsConnect host port password, .obsSetReplayBuffer, .obsInitVlcSource,
             .storeConnInfo host port password, .setRunning true, .spawnRunLoop]) ∧
    (∀ (s : AppState) (op : Op) (c : ConnInfo), s.obs_connection_info = some c →
      ∃ d, (step s op).obs_connection_info = some d) ∧
    (∀ (s : AppState) (ops : List Op) (c : ConnInfo), s.obs_connection_info = some c →
      ∃ d, (run s ops).obs_connection_info = some d) ∧
    (∀ (paths : List String) (s : AppState) (o : ObsOracle) (c : ConnInfo),
      s.obs_connection_info = some c → paths ≠ [] →
      (play_highlights paths s o).result ≠ .error "OBS接続情報が見つかりません") := by
  refine ⟨?_, ?_, ?_, ?_⟩
  · intro host port password s o hrun hc hb hv
    refine ⟨?_, ?_⟩ <;> simp [connect_obs, hrun, hc, hb, hv]
  · exact step_conn_info_some
  · exact fun s ops c h => run_conn_info_some ops s c h
  · intro paths s o c hc hne
    obtain ⟨host, port, password⟩ := c
    have hE : paths.isEmpty = false := by
      simp [List.isEmpty_iff, hne]
    simp only [play_highlights, hc, hE, Bool.false_eq_true, if_false]
    cases hcon : o.connect host port password with
    | error e =>
      simp only [hcon]
      intro heq
      exact notConnInfoError_connect e (by injection heq)
    | ok u =>
      cases hplay : o.play_vlc_source paths with
      | error e =>
        simp only [hcon, hplay]
        intro heq
        exact notConnInfoError_play e (by injection heq)
      | ok v =>
        simp [hcon, hplay]

/-- Witness for C10: a successful connect from the initial state stores the
descriptor, and a later non-empty playback on a state holding a descriptor is
not rejected with NoConnectionInfo. -/
theorem claim_C10_witness :
    (connect_obs "127.0.0.1" 4444 none AppState.new obsAllOk).state.obs_connection_info
        = some ("127.0.0.1", 4444, none) ∧
    (play_highlights ["a.mp4"]
        { AppState.new with obs_connection_info := some ("127.0.0.1", 4444, none) }
        obsAllOk).result ≠ .error "OBS接続情報が見つかりません" :=
  ⟨(claim_C10_conn_info_persistent.1 "127.0.0.1" 4444 none AppState.new obsAllOk
      rfl rfl rfl rfl).1,
   claim_C10_conn_info_persistent.2.2.2 ["a.mp4"] _ obsAllOk ("127.0.0.1", 4444, none)
     rfl (List.cons_ne_nil "a.mp4" [])⟩

/-- C1 (code divergence): after a successful session start the running flag is
true; the run loop returns Ok(()) when the message channel closes; but the
spawn wrapper's completion — the only code that observes the loop's exit — is
the identity on the shared state, so is_system_running is STILL true after the
run loop has terminated.  The claim says loop termination clears the flag to
false; no code path in lib.rs ever writes false to is_system_running after
startup. -/
theorem claim_C1_flag_not_cleared_on_exit :
    (connect_obs "127.0.0.1" 4444 none AppState.new obsAllOk).state.is_system_running
        = true ∧
    (run_main_system setupAllOk loopOracleEx []).1 = .ok () ∧
    (step (connect_obs "127.0.0.1" 4444 none AppState.new obsAllOk).state
        Op.runLoopExit).is_system_running = true :=
  ⟨rfl, rfl, rfl⟩

end RlReplay
